import Mathlib

/-!
Shallow embedding of the Tungsten compiler front end (`src/__main__.py`).

The Python program is a single-pass compiler: a character-level lexer
(`Lexer`), a recursive-descent parser (`Parser`) driving a scope tree
(`Scope`) and an append-only three-buffer emitter (`Emitter`).  The
embedding below translates each Python method into a Lean function of the
same name (where legal).  Mutable state becomes explicit state passing:

* the lexer becomes functions over the remaining `List Char` of the input
  (source positions, which only feed diagnostics, are not modelled);
* the scope tree with parent back-references becomes the list of frames
  from the current scope to the root (`scopes : List Frame`, head =
  current scope, `[]` = the Python `None` parent of the global scope);
* every `Parser.error`/`Lexer.error` call (which prints and `exit`s)
  becomes an `Except` error carrying the state at the moment of exit;
* an uncaught Python runtime exception (e.g. dereferencing `None`, or the
  lexer falling off the end of `_next` and returning `None` to a caller
  that immediately reads `.kind`) is the distinguished `Fatal.crash`
  outcome, kept separate from the deliberate diagnostics;
* the Python `while` loops become fuel-indexed recursion; `compile` passes
  ample fuel (every iteration consumes at least one character / token).

`compile` pre-lexes the whole input and then parses the token list.  The
Python program lexes lazily, but the lexer is deterministic and the parser
consumes tokens strictly left to right, so the only observable difference
is which of two fatal outcomes is reported when a parse error and a later
lexical error both exist; no theorem below depends on that ordering.
-/

namespace Tungsten

set_option maxRecDepth 100000

/-- Token kinds, mirroring the string tags of the Python `TokenKind` class.
`equals` corresponds to `TokenKind.EQUALS`; note that no rule of
`Lexer._next_by_sym`/`Lexer._next` ever produces it. -/
inductive TokenKind where
  | eol | eof | byte | int16 | lparen | rparen | identifier | string
  | plus | minus | times | divide | modulo | lscope | rscope
  | function | while_ | if_ | equals | ret | semicolon
  | buffer | type_ | const | asm | comma | noret
deriving DecidableEq, Repr

/-- Payload of a token: Python stores `None`, an `int`, or a `str` in
`Token.value`. -/
inductive TokValue where
  | none
  | num (n : Nat)
  | str (s : String)
deriving DecidableEq, Repr

/-- A token.  The Python `Token` also records line/offset/length used only
for diagnostic carets, which are not modelled. -/
structure Token where
  kind : TokenKind
  val : TokValue
deriving DecidableEq, Repr

/-- String rendering of a token value, as the Python f-string `f"{value}"`
would print it (used by `parse_const`). -/
def TokValue.render : TokValue → String
  | .none => "None"
  | .num n => Nat.repr n
  | .str s => s

/-- Extract the string payload of a token value (identifiers, strings and
type names always carry one). -/
def TokValue.asStr : TokValue → String
  | .str s => s
  | _ => ""

/-- Fatal outcomes of a run.  The first two constructors are the lexer's
`error` (process exit code -2), the middle group the parser's `error`
(exit code -3), and `crash` is an uncaught Python runtime exception
(`AttributeError` on `None`, etc.), which is not a diagnostic at all. -/
inductive Fatal where
  | lexInvalidLiteral (literal : String) (ty : String)
  | lexUnterminatedString
  | unexpectedToken (k : TokenKind)
  | duplicateDecl (name : String) (scope : String)
  | voidAlloc (name : String)
  | nestedFunction
  | asmOutsideFunction
  | noretOutsideFunction
  | missingReturn (name : String)
  | undeclaredSymbol (name : String)
  | endNotGlobal
  | crash (msg : String)
deriving DecidableEq, Repr

/-! ### Lexer (`Lexer._next_by_sym`, `Lexer._next`) -/

/-- The `basic` symbol table at the top of `Lexer._next_by_sym`.  Note the
absence of `=`: the Python lexer has no rule at all for `=`. -/
def basicSym (c : Char) : Option TokenKind :=
  if c = '+' then some .plus
  else if c = '*' then some .times
  else if c = '-' then some .minus
  else if c = '/' then some .divide
  else if c = '%' then some .modulo
  else if c = '(' then some .lparen
  else if c = ')' then some .rparen
  else if c = '{' then some .lscope
  else if c = '}' then some .rscope
  else if c = ';' then some .semicolon
  else if c = ',' then some .comma
  else none

/-- Classification of a numeric literal by its parsed value, mirroring
`TokenKind.BYTE if value <= 255 else TokenKind.INT16` (three occurrences
in the Python lexer). -/
def numToken (v : Nat) : Token :=
  ⟨if v ≤ 255 then .byte else .int16, .num v⟩

/-- Value of one hexadecimal digit, as accepted by Python `int(s, 16)`. -/
def hexDigit? (c : Char) : Option Nat :=
  if '0' ≤ c ∧ c ≤ '9' then some (c.toNat - '0'.toNat)
  else if 'a' ≤ c ∧ c ≤ 'f' then some (c.toNat - 'a'.toNat + 10)
  else if 'A' ≤ c ∧ c ≤ 'F' then some (c.toNat - 'A'.toNat + 10)
  else none

/-- Helper for `hexParse`. -/
def hexParseAux : List Char → Nat → Option Nat
  | [], acc => some acc
  | c :: cs, acc =>
    match hexDigit? c with
    | some d => hexParseAux cs (acc * 16 + d)
    | Option.none => Option.none

/-- Python `int(buffer, 16)` on the collected buffer: accepts an optional
`0x`/`0X` prefix followed by a nonempty run of hex digits (so a buffer
such as `0x1f`, reachable from source `0x0x1f`, parses to 31), and fails
on the empty string, on a bare prefix, or on any non-hex character among
the digits (the buffer collected by the lexer consists of alphanumeric
characters only, so the sign/underscore/whitespace lenience of Python
`int` cannot arise). -/
def hexParse (cs : List Char) : Option Nat :=
  match cs with
  | '0' :: 'x' :: rest => if rest.isEmpty then Option.none else hexParseAux rest 0
  | '0' :: 'X' :: rest => if rest.isEmpty then Option.none else hexParseAux rest 0
  | _ => if cs.isEmpty then Option.none else hexParseAux cs 0

/-- Helper for `binParse`. -/
def binParseAux : List Char → Nat → Option Nat
  | [], acc => some acc
  | c :: cs, acc =>
    if c = '0' then binParseAux cs (acc * 2)
    else if c = '1' then binParseAux cs (acc * 2 + 1)
    else Option.none

/-- Python `int(buffer, 2)`: fails on the empty string (the binary
collection loop only ever buffers `0`/`1`). -/
def binParse (cs : List Char) : Option Nat :=
  if cs.isEmpty then Option.none else binParseAux cs 0

/-- Value of a nonempty all-decimal buffer, Python `int(buffer)`. -/
def decVal (cs : List Char) : Nat :=
  cs.foldl (fun acc c => acc * 10 + (c.toNat - '0'.toNat)) 0

/-- Characters allowed inside an identifier buffer:
`isalnum() or == "_"`. -/
def isIdentChar (c : Char) : Bool :=
  c.isAlphanum || c = '_'

/-- Characters the string-literal loop keeps consuming:
anything except a closing quote or a newline (list end = end of file). -/
def isStrChar (c : Char) : Bool :=
  c ≠ '"' && c ≠ '\n'

/-- `Lexer._next_by_sym`.  Returns either a fatal lexical error, or an
optional token together with the remaining input.  `none` as the token
means the Python method returned `None` and control falls back to
`_next` — note that in the `0`-prefix case the `0` has been consumed. -/
def lexNextBySym (cs : List Char) : Except Fatal (Option Token × List Char) :=
  match cs with
  | [] => .ok (Option.none, [])
  | c :: rest =>
    match basicSym c with
    | some k => .ok (some ⟨k, .none⟩, rest)
    | Option.none =>
      if c = '0' then
        match rest with
        | 'x' :: rest2 =>
          let buf := rest2.takeWhile Char.isAlphanum
          let rest3 := rest2.dropWhile Char.isAlphanum
          match hexParse buf with
          | some v => .ok (some (numToken v), rest3)
          | Option.none => .error (.lexInvalidLiteral buf.asString "hex")
        | 'b' :: rest2 =>
          let buf := rest2.takeWhile (fun ch => ch = '0' || ch = '1')
          let rest3 := rest2.dropWhile (fun ch => ch = '0' || ch = '1')
          match binParse buf with
          | some v => .ok (some (numToken v), rest3)
          | Option.none => .error (.lexInvalidLiteral buf.asString "bin")
        | _ => .ok (Option.none, rest)
      else if c = '"' then
        let buf := rest.takeWhile isStrChar
        let rest2 := rest.dropWhile isStrChar
        match rest2 with
        | '"' :: rest3 => .ok (some ⟨.string, .str buf.asString⟩, rest3)
        | _ => .error .lexUnterminatedString
      else if c = '\n' then .ok (some ⟨.eol, .none⟩, rest)
      else if c = '#' then
        .ok (some ⟨.eol, .none⟩, (c :: rest).dropWhile (fun ch => ch ≠ '\n'))
      else .ok (Option.none, c :: rest)

/-- Keyword dispatch at the end of `Lexer._next`. -/
def keywordToken (s : String) : Token :=
  if s = "fn" then ⟨.function, .none⟩
  else if s = "while" then ⟨.while_, .none⟩
  else if s = "if" then ⟨.if_, .none⟩
  else if s = "ret" then ⟨.ret, .none⟩
  else if s = "buf" then ⟨.buffer, .none⟩
  else if s = "const" then ⟨.const, .none⟩
  else if s = "void" || s = "byte" || s = "int" || s = "ptr" then ⟨.type_, .str s⟩
  else if s = "asm" then ⟨.asm, .none⟩
  else if s = "noret" then ⟨.noret, .none⟩
  else ⟨.identifier, .str s⟩

/-- `Lexer._next`.  A `(none, rest)` success means the Python method fell
off its end and returned `None` (which the parser then dereferences — a
crash).  Note the end-of-input check precedes whitespace skipping, so an
input ending in spaces reaches the `None` path. -/
def lexNext (cs : List Char) : Except Fatal (Option Token × List Char) :=
  match cs with
  | [] => .ok (some ⟨.eof, .none⟩, [])
  | _ :: _ =>
    let cs1 := cs.dropWhile (fun c => c = ' ' || c = '\t')
    match lexNextBySym cs1 with
    | .error e => .error e
    | .ok (some t, rest) => .ok (some t, rest)
    | .ok (Option.none, cs2) =>
      let dbuf := cs2.takeWhile Char.isDigit
      let cs3 := cs2.dropWhile Char.isDigit
      if dbuf.isEmpty then
        let abuf := cs3.takeWhile isIdentChar
        let cs4 := cs3.dropWhile isIdentChar
        if abuf.isEmpty then .ok (Option.none, cs4)
        else .ok (some (keywordToken abuf.asString), cs4)
      else .ok (some (numToken (decVal dbuf)), cs3)

/-- Repeated `Lexer.next` until the end-of-file token, producing the full
token stream (end-of-line tokens included; the parser skips them).  A
`None` return from `_next` is the crash the parser hits on `token.kind`. -/
def lexAll : Nat → List Char → Except Fatal (List Token)
  | 0, _ => .error (.crash "lexer fuel exhausted")
  | fuel + 1, cs =>
    match lexNext cs with
    | .error e => .error e
    | .ok (Option.none, _) => .error (.crash "Lexer._next returned None")
    | .ok (some t, rest) =>
      if t.kind = .eof then .ok [t]
      else
        match lexAll fuel rest with
        | .error e => .error e
        | .ok ts => .ok (t :: ts)

/-! ### Emitter -/

/-- The three append-only output buffers of the Python `Emitter`. -/
structure Emitter where
  data_section : String
  text_section : String
  constants : String
deriving DecidableEq, Repr

/-- Initial `data_section` (the Python triple-quoted literal, leading and
trailing newlines included). -/
def dataPreamble : String :=
  "\n# Tungsten Compiler\n# Generated data\n.section data\n.label _swap\n.alloc 2\n.label __TUNGSTEN_FUNCTION_JBA\n.alloc 2\n.label __TUNGSTEN_FUNCION_RETVAL\n.alloc 2\n"

/-- Initial `text_section`. -/
def textPreamble : String :=
  "\n# Tungsten Compiler\n# Generated code\n.section text\n"

/-- Initial `constants`. -/
def constPreamble : String :=
  "\n# Tungsten Compiler\n# Constants\n.set void 0\n.set byte 1\n.set int 2\n.set ptr 2\n"

/-- `Emitter.__init__`. -/
def initEmitter : Emitter :=
  ⟨dataPreamble, textPreamble, constPreamble⟩

/-- `Emitter.build`: constants, then code, then data. -/
def Emitter.build (e : Emitter) : String :=
  e.constants ++ "\n" ++ e.text_section ++ "\n" ++ e.data_section

/-- `Emitter.emit_const`.  Appends `.set name value` with no separator of
its own (unlike every other emit method, there is no leading newline). -/
def Emitter.emit_const (e : Emitter) (name value : String) : Emitter :=
  { e with constants := e.constants ++ ".set " ++ name ++ " " ++ value }

/-- `Emitter.emit_data_label`. -/
def Emitter.emit_data_label (e : Emitter) (label : String) : Emitter :=
  { e with data_section := e.data_section ++ "\n.label " ++ label }

/-- `Emitter.emit_text_label`. -/
def Emitter.emit_text_label (e : Emitter) (label : String) : Emitter :=
  { e with text_section := e.text_section ++ "\n.label " ++ label }

/-- `Emitter.emit_alloc`. -/
def Emitter.emit_alloc (e : Emitter) (size : Nat) : Emitter :=
  { e with data_section := e.data_section ++ "\n.alloc " ++ Nat.repr size }

/-- `Emitter.emit_buffer`: a data label followed by its allocation. -/
def Emitter.emit_buffer (e : Emitter) (name : String) (size : Nat) : Emitter :=
  (e.emit_data_label name).emit_alloc size

/-- `Emitter.emit_asm_text`. -/
def Emitter.emit_asm_text (e : Emitter) (code : String) : Emitter :=
  { e with text_section := e.text_section ++ "\n" ++ code }

/-! ### Scope tree (`Scope`), function signatures, variables -/

/-- `Variable` (the declaring token, used only for the error caret, is not
modelled). -/
structure Variable where
  name : String
  size : Nat
deriving DecidableEq, Repr

/-- `FunctionSignature`.  `ret_type` is `Option` because the Python
constructor receives `None` in the parenthesised-argument form until the
return type is parsed. -/
structure Sig where
  name : String
  args : List Variable
  ret_type : Option String
  returned : Bool
deriving DecidableEq, Repr

/-- Python dict assignment `d[k] = v` on an insertion-ordered
association list. -/
def dictSet (d : List (String × String)) (k v : String) : List (String × String) :=
  match d with
  | [] => [(k, v)]
  | (k', v') :: r => if k' = k then (k, v) :: r else (k', v') :: dictSet r k v

/-- Python `k in d`. -/
def dictHas (d : List (String × String)) (k : String) : Bool :=
  d.any (fun p => p.1 = k)

/-- Python `d[k]` as an `Option`. -/
def dictGet (d : List (String × String)) (k : String) : Option String :=
  (d.find? (fun p => p.1 = k)).map (fun p => p.2)

/-- One `Scope` object: its name, its `symbols` dict, its anonymous-child
counter (`unnamed_scope_cout`, Python typo preserved) and the signatures
appended by `parse_function`.  The parent pointer is represented by list
position in `scopes : List Frame`. -/
structure Frame where
  name : String
  symbols : List (String × String)
  cout : Nat
  functions : List Sig
deriving DecidableEq, Repr

/-- `Scope.header`. -/
def Frame.header (f : Frame) : String :=
  "__TUNGSTEN_START_" ++ f.name

/-- `Scope.footer`. -/
def Frame.footer (f : Frame) : String :=
  "__TUNGSTEN_END_" ++ f.name

/-- `Scope.map_generic`. -/
def Frame.map_generic (f : Frame) (k v : String) : Frame :=
  { f with symbols := dictSet f.symbols k v }

/-- `Scope.map_variable`: binds `name` to `BUFFER_<scope>_<name>`. -/
def Frame.map_variable (f : Frame) (n : String) : Frame :=
  { f with symbols := dictSet f.symbols n ("BUFFER_" ++ f.name ++ "_" ++ n) }

/-- `Scope.map_const`: binds `name` to `CONST_<scope>_<name>`. -/
def Frame.map_const (f : Frame) (n : String) : Frame :=
  { f with symbols := dictSet f.symbols n ("CONST_" ++ f.name ++ "_" ++ n) }

/-- `Scope.has_sym_strict`: current scope only. -/
def Frame.has_sym_strict (f : Frame) (n : String) : Bool :=
  dictHas f.symbols n

/-- `Scope.has_sym`: chained lookup through the parent chain (head of the
list is the innermost scope). -/
def has_sym : List Frame → String → Bool
  | [], _ => false
  | f :: r, n => f.has_sym_strict n || has_sym r n

/-- `Scope.get_sym`: chained lookup returning the innermost binding, or
`none` (Python `None`) when the root is passed. -/
def get_sym : List Frame → String → Option String
  | [], _ => Option.none
  | f :: r, n => if f.has_sym_strict n then dictGet f.symbols n else get_sym r n

/-- `Scope.new_subscope`: produces the next anonymous child name
`<parent-name><index>` and the parent with its counter bumped. -/
def new_subscope (f : Frame) : String × Frame :=
  (f.name ++ Nat.repr f.cout, { f with cout := f.cout + 1 })

/-! ### Parser state -/

/-- The mutable state of the Python `Parser`: the remaining token stream
(standing in for the lexer reference), the emitter, the pending function
signature and the scope chain (head = `self.scope`, `[]` = `None`).
`scope_trace` is pure instrumentation recording the name of every scope
pushed by `parse_new_scope`, in order; no parsing decision reads it. -/
structure PState where
  toks : List Token
  emitter : Emitter
  signature : Option Sig
  scopes : List Frame
  scope_trace : List String
deriving DecidableEq, Repr

/-- Result of a parsing step: either the next state, or the fatal outcome
paired with the state at the moment the Python process exits (or
crashes). -/
abbrev PRes := Except (Fatal × PState) PState

/-- `Parser.next` on the token stream: skip end-of-line tokens.  Once the
underlying lexer is exhausted it keeps producing `EOF` (`self.index`
stays past the end), modelled by the `[]` case. -/
def pnext : List Token → Token × List Token
  | [] => (⟨.eof, .none⟩, [])
  | t :: r => if t.kind = .eol then pnext r else (t, r)

/-- `Parser.next` lifted to the parser state. -/
def pnextS (s : PState) : Token × PState :=
  let (t, r) := pnext s.toks
  (t, { s with toks := r })

/-- `Parser.expect`. -/
def expect (s : PState) (kinds : List TokenKind) : Except (Fatal × PState) (Token × PState) :=
  let (t, s') := pnextS s
  if kinds.contains t.kind then .ok (t, s')
  else .error (.unexpectedToken t.kind, s')

/-! ### Parser statement handlers -/

/-- `Parser._collect_buf`: an identifier followed by a type name or a byte
literal, resolved to a byte size (`byte` = 1, `int`/`ptr` = 2, any other
type name — i.e. `void` — leaves the initial 0, a literal gives its own
value). -/
def _collect_buf (s : PState) : Except (Fatal × PState) (Variable × PState) :=
  match expect s [.identifier] with
  | .error e => .error e
  | .ok (name, s) =>
    match expect s [.type_, .byte] with
    | .error e => .error e
    | .ok (ty, s) =>
      let type_size : Nat :=
        match ty.kind, ty.val with
        | .type_, .str "byte" => 1
        | .type_, .str "int" => 2
        | .type_, .str "ptr" => 2
        | .byte, .num n => n
        | _, _ => 0
      .ok (⟨name.val.asStr, type_size⟩, s)

/-- `Parser._alloc_var`: duplicate check, void check, then registration
and emission (in that order — the error exits happen before any mutation
of the scope or the emitter). -/
def _alloc_var (s : PState) (var : Variable) : PRes :=
  match s.scopes with
  | [] => .error (.crash "NoneType has no attribute has_sym_strict", s)
  | f :: r =>
    if f.has_sym_strict var.name then .error (.duplicateDecl var.name f.name, s)
    else if var.size = 0 then .error (.voidAlloc var.name, s)
    else
      let f' := f.map_variable var.name
      let sym := (get_sym (f' :: r) var.name).getD "None"
      .ok { s with scopes := f' :: r, emitter := s.emitter.emit_buffer sym var.size }

/-- `Parser.parse_buffer`. -/
def parse_buffer (s : PState) : PRes :=
  match _collect_buf s with
  | .error e => .error e
  | .ok (var, s) => _alloc_var s var

/-- `Parser.parse_const`.  The `equals` expectation is unsatisfiable
through `compile` because the lexer never produces an `EQUALS` token. -/
def parse_const (s : PState) : PRes :=
  match expect s [.identifier] with
  | .error e => .error e
  | .ok (name, s) =>
    match expect s [.equals] with
    | .error e => .error e
    | .ok (_, s) =>
      match expect s [.identifier, .byte, .int16, .string, .type_] with
      | .error e => .error e
      | .ok (value, s) =>
        match s.scopes with
        | [] => .error (.crash "NoneType has no attribute has_sym_strict", s)
        | f :: r =>
          if f.has_sym_strict name.val.asStr then
            .error (.duplicateDecl name.val.asStr f.name, s)
          else
            let f' := f.map_const name.val.asStr
            let sym := (get_sym (f' :: r) name.val.asStr).getD "None"
            .ok { s with scopes := f' :: r,
                         emitter := s.emitter.emit_const sym value.val.render }

/-- `Parser.parse_new_scope`: the new scope takes the pending function's
name, or an anonymous `<parent-name><index>` name.  A scope named `main`
additionally emits the fixed `_main` entry label.  For a function scope
the well-known aliases are registered and the arguments allocated before
the start label is emitted. -/
def parse_new_scope (s : PState) : PRes :=
  let nameRes : Except (Fatal × PState) (String × PState) :=
    match s.signature with
    | some sig => .ok (sig.name, s)
    | Option.none =>
      match s.scopes with
      | [] => .error (.crash "NoneType has no attribute new_subscope", s)
      | f :: r =>
        let (nm, f') := new_subscope f
        .ok (nm, { s with scopes := f' :: r })
  match nameRes with
  | .error e => .error e
  | .ok (nm, s1) =>
    let s2 := if nm = "main" then { s1 with emitter := s1.emitter.emit_text_label "_main" } else s1
    let fr : Frame := ⟨nm, [], 0, []⟩
    let s3 := { s2 with scopes := fr :: s2.scopes, scope_trace := s2.scope_trace ++ [nm] }
    match s3.signature with
    | Option.none => .ok { s3 with emitter := s3.emitter.emit_text_label fr.header }
    | some sig =>
      let fr2 := ((fr.map_generic "__ret" "__TUNGSTEN_FUNCION_RETVAL").map_generic
                    "__start" fr.header).map_generic "__end" fr.footer
      let s4 := { s3 with scopes := fr2 :: s2.scopes }
      match sig.args.foldlM (fun st v => _alloc_var st v) s4 with
      | .error e => .error e
      | .ok s5 => .ok { s5 with emitter := s5.emitter.emit_text_label fr.header }

/-- `Parser.parse_end_scope`: the missing-return check fires only when a
pending signature's name equals the closing scope's name; the signature is
then cleared.  The end label is emitted and the scope popped — even when
the current scope is the global one, whose parent is `None` (`[]`). -/
def parse_end_scope (s : PState) : PRes :=
  match s.scopes with
  | [] => .error (.crash "NoneType has no attribute footer", s)
  | f :: r =>
    let step1 : PRes :=
      match s.signature with
      | some sig =>
        if sig.name = f.name then
          if sig.ret_type ≠ some "void" ∧ sig.returned = false ∧ sig.name = f.name then
            .error (.missingReturn sig.name, s)
          else .ok { s with signature := Option.none }
        else .ok s
      | Option.none => .ok s
    match step1 with
    | .error e => .error e
    | .ok s' =>
      .ok { s' with emitter := s'.emitter.emit_text_label f.footer, scopes := r }

/-- `self.scope.functions.append(self.signature)` at the end of
`Parser.parse_function`.  The `none` signature case cannot occur at the
call sites (the signature is assigned just before). -/
def scopeAppendFn (s : PState) : PRes :=
  match s.scopes with
  | [] => .error (.crash "NoneType has no attribute functions", s)
  | f :: r =>
    match s.signature with
    | some sig => .ok { s with scopes := { f with functions := f.functions ++ [sig] } :: r }
    | Option.none => .ok s

/-- The `while True` argument loop of `Parser.parse_function`: collect a
buffer, append it to the pending signature's arguments, and continue until
a closing parenthesis. -/
def parseFnArgs : Nat → PState → PRes
  | 0, s => .error (.crash "parser fuel exhausted", s)
  | fuel + 1, s =>
    match _collect_buf s with
    | .error e => .error e
    | .ok (var, s) =>
      let s := { s with signature := s.signature.map (fun g => { g with args := g.args ++ [var] }) }
      match expect s [.rparen, .comma] with
      | .error e => .error e
      | .ok (sep, s) =>
        if sep.kind = .rparen then .ok s
        else parseFnArgs fuel s

/-- `Parser.parse_function`.  The nested-function rejection compares the
current scope's NAME against the literal `"_GLOBAL"`. -/
def parse_function (fuel : Nat) (s : PState) : PRes :=
  match s.scopes with
  | [] => .error (.crash "NoneType has no attribute name", s)
  | f :: _ =>
    if f.name ≠ "_GLOBAL" then .error (.nestedFunction, s)
    else
      match expect s [.identifier] with
      | .error e => .error e
      | .ok (name, s) =>
        match expect s [.lparen, .type_] with
        | .error e => .error e
        | .ok (nx, s) =>
          match nx.kind with
          | .lparen =>
            let s := { s with signature := some ⟨name.val.asStr, [], Option.none, false⟩ }
            match parseFnArgs fuel s with
            | .error e => .error e
            | .ok s =>
              match expect s [.type_] with
              | .error e => .error e
              | .ok (rt, s) =>
                scopeAppendFn
                  { s with signature :=
                      s.signature.map (fun g => { g with ret_type := some rt.val.asStr }) }
          | _ =>
            -- `expect` guarantees this is the TYPE case
            scopeAppendFn { s with signature := some ⟨name.val.asStr, [], some nx.val.asStr, false⟩ }

/-- `Parser._parse_asm`: scan the embedded-assembly text; each `%`
introduces a placeholder name (a maximal run of identifier characters),
resolved by chained lookup in the current scope and replaced by the
mangled symbol; other characters pass through verbatim.  The Python
`while i < len(code)` loop advances by at least one character per
iteration, so any fuel exceeding the text length is ample. -/
def parseAsmSub (scopes : List Frame) : Nat → List Char → String → Except Fatal String
  | 0, _, _ => .error (.crash "substitution fuel exhausted")
  | _ + 1, [], out => .ok out
  | fuel + 1, c :: cs, out =>
    if c = '%' then
      let nm := (cs.takeWhile isIdentChar).asString
      let cs2 := cs.dropWhile isIdentChar
      match scopes with
      | [] => .error (.crash "NoneType has no attribute has_sym")
      | _ :: _ =>
        if has_sym scopes nm then
          parseAsmSub scopes fuel cs2 (out ++ ((get_sym scopes nm).getD "None"))
        else .error (.undeclaredSymbol nm)
    else parseAsmSub scopes fuel cs (out ++ c.toString)

/-- `Parser.parse_asm`: a string literal, legal only inside an active
function; the substituted text is appended to the code section. -/
def parse_asm (s : PState) : PRes :=
  match expect s [.string] with
  | .error e => .error e
  | .ok (code, s) =>
    match s.signature with
    | Option.none => .error (.asmOutsideFunction, s)
    | some _ =>
      match parseAsmSub s.scopes (code.val.asStr.length + 1) code.val.asStr.toList "" with
      | .error e => .error (e, s)
      | .ok out => .ok { s with emitter := s.emitter.emit_asm_text out }

/-- `Parser.parse_noret`: records the no-return acknowledgment on the
active signature. -/
def parse_noret (s : PState) : PRes :=
  match s.signature with
  | Option.none => .error (.noretOutsideFunction, s)
  | some sig => .ok { s with signature := some { sig with returned := true } }

/-- The end-of-input check after the dispatch loop of `Parser.parse`
(`if self.scope.name != "_GLOBAL": error`).  With the scope already popped
past the root, reading `.name` of `None` is a crash. -/
def parse_end_check (s : PState) : PRes :=
  match s.scopes with
  | [] => .error (.crash "NoneType has no attribute name", s)
  | f :: _ =>
    if f.name ≠ "_GLOBAL" then .error (.endNotGlobal, s)
    else .ok s

/-- The dispatch loop of `Parser.parse`.  Unhandled statement kinds
(`if`, `while`, bare identifiers, `ret`, and any token the match does not
list) perform no action and only require the trailing semicolon. -/
def parseLoop : Nat → PState → PRes
  | 0, s => .error (.crash "parser fuel exhausted", s)
  | fuel + 1, s =>
    let (t, s) := pnextS s
    if t.kind = .eof then parse_end_check s
    else
      let step : Except (Fatal × PState) (Bool × PState) :=
        match t.kind with
        | .buffer => (parse_buffer s).map (fun s' => (true, s'))
        | .const => (parse_const s).map (fun s' => (true, s'))
        | .function => (parse_function fuel s).map (fun s' => (false, s'))
        | .lscope => (parse_new_scope s).map (fun s' => (false, s'))
        | .rscope => (parse_end_scope s).map (fun s' => (false, s'))
        | .asm => (parse_asm s).map (fun s' => (true, s'))
        | .noret => (parse_noret s).map (fun s' => (true, s'))
        | _ => .ok (true, s)
      match step with
      | .error e => .error e
      | .ok (reqSemi, s) =>
        if reqSemi then
          match expect s [.semicolon] with
          | .error e => .error e
          | .ok (_, s) => parseLoop fuel s
        else parseLoop fuel s

/-! ### Whole-run driver -/

/-- Outcome of one compilation run: normal completion, a fatal outcome
during parsing (with the state at exit), or a fatal outcome during
lexing. -/
inductive CResult where
  | ok (s : PState)
  | fatal (e : Fatal) (s : PState)
  | lexFatal (e : Fatal)
deriving DecidableEq, Repr

/-- The root scope `Scope("_GLOBAL", None)`. -/
def globalFrame : Frame := ⟨"_GLOBAL", [], 0, []⟩

/-- `Parser.__init__`. -/
def initState (toks : List Token) : PState :=
  ⟨toks, initEmitter, Option.none, [globalFrame], []⟩

/-- One full run: lex everything, then parse.  Every lexer step consumes
at least one character and every parse step at least one token, so the
fuel is ample and never exhausted. -/
def compile (src : String) : CResult :=
  match lexAll (src.length + 2) src.toList with
  | .error e => .lexFatal e
  | .ok toks =>
    match parseLoop (toks.length + 2) (initState toks) with
    | .error (e, s) => .fatal e s
    | .ok s => .ok s

/-- Did the run complete without any fatal outcome? -/
def CResult.isOk : CResult → Bool
  | .ok _ => true
  | _ => false

/-- The fatal outcome of a run, if any. -/
def CResult.err? : CResult → Option Fatal
  | .ok _ => Option.none
  | .fatal e _ => some e
  | .lexFatal e => some e

/-- The final (or exit-time) parser state of a run, when parsing started. -/
def CResult.state? : CResult → Option PState
  | .ok s => some s
  | .fatal _ s => some s
  | .lexFatal _ => Option.none

/-- Number of (possibly overlapping) occurrences of `pat` in `l`. -/
def countSubstr : List Char → List Char → Nat
  | [], _ => 0
  | c :: rest, pat =>
    (if pat.isPrefixOf (c :: rest) then 1 else 0) + countSubstr rest pat

/-! ### Helper definitions for the theorems -/

/-- The frame obtained from `f` after `k` successive `new_subscope` calls
(i.e. after `k` anonymous child scopes have been opened under it). -/
def subscopeIter (f : Frame) : Nat → Frame
  | 0 => f
  | k + 1 => (new_subscope (subscopeIter f k)).2

/-- Name handed to the `k`-th anonymous child scope of `f` (0-based). -/
def childName (f : Frame) (k : Nat) : String :=
  (new_subscope (subscopeIter f k)).1

/-- Modelled from the spec: chained lookup "returns the nearest enclosing
binding" — the first frame from the innermost outwards whose own symbol
table binds the name provides the result.  Used only to compare against
the source-derived `get_sym`. -/
def nearestBinding (scopes : List Frame) (n : String) : Option String :=
  (scopes.find? (fun f => f.has_sym_strict n)).bind (fun f => dictGet f.symbols n)

/-- A program whose eleventh top-level anonymous block and the first
anonymous block nested in its second top-level block both receive the
scope name `_GLOBAL10` (parent `_GLOBAL` at index 10 vs. parent
`_GLOBAL1` at index 0), each declaring a buffer `x`. -/
def progC1 : String := "{}{{buf x byte;}}{}{}{}{}{}{}{}{}{buf x byte;}"

/-- A function named exactly `_GLOBAL` whose body therefore passes the
name-based nested-function check, with a second function declared inside
it. -/
def progC2 : String := "fn _GLOBAL int { fn g int { noret; } }"

/-- A program ending inside the unclosed body of a function named
`_GLOBAL`, which passes the name-based end-of-input check. -/
def progC3 : String := "fn _GLOBAL int \x7b noret;"

/-- Scenario C of the spec. -/
def progC8 : String := "fn main int { noret; }"

/-- A closing brace parsed while the current scope is the global scope,
with a pending non-void signature named `_GLOBAL`. -/
def progC10 : String := "fn _GLOBAL int \x7d"

/-- Scenario B of the spec: duplicate buffer declaration. -/
def progC6a : String := "buf x byte; buf x byte;"

/-- A duplicate constant declaration after a buffer declaration. -/
def progC6b : String := "buf x byte; const x = 5;"

/-- Two constant declarations. -/
def progC9 : String := "const x = 5; const y = 6;"

/-- A parser state whose current scope is a function body named `main`
(not the global scope). -/
def c2state : PState :=
  ⟨[], initEmitter, Option.none, [⟨"main", [], 0, []⟩], []⟩

/-- A parser state whose current scope is an unclosed scope named `f`. -/
def c3state : PState :=
  ⟨[], initEmitter, Option.none, [⟨"f", [], 0, []⟩], []⟩

/-- A parser state inside function `f` (non-void, no acknowledgment yet)
with nested anonymous scope `f0`; the embedded-assembly text references a
symbol of the function scope and one of the global scope. -/
def c5state : PState :=
  ⟨[⟨.string, .str "%b %g"⟩], initEmitter, some ⟨"f", [], some "int", false⟩,
   [⟨"f0", [("a", "BUFFER_f0_a")], 0, []⟩,
    ⟨"f", [("b", "BUFFER_f_b")], 0, []⟩,
    ⟨"_GLOBAL", [("g", "BUFFER__GLOBAL_g")], 0, []⟩], []⟩

/-- A parser state about to close the body of non-void function `f`
without a recorded acknowledgment. -/
def c7state : PState :=
  ⟨[], initEmitter, some ⟨"f", [], some "int", false⟩, [⟨"f", [], 0, []⟩, globalFrame], []⟩

/-- A parser state at the global scope with no pending signature. -/
def c10state : PState :=
  ⟨[], initEmitter, Option.none, [globalFrame], []⟩

/-- Decimal digit characters of `n`, most significant first, as produced
by `Nat.toDigitsCore` with sufficient fuel. -/
def decDigitsRec (n : Nat) : List Char :=
  if h : n / 10 = 0 then [Nat.digitChar (n % 10)]
  else decDigitsRec (n / 10) ++ [Nat.digitChar (n % 10)]
decreasing_by
  exact Nat.div_lt_self (Nat.pos_of_ne_zero (fun hn => h (by simp [hn]))) (by norm_num)

/-- Numeric value of a decimal digit string. -/
def decDigitsVal (l : List Char) : Nat :=
  l.foldl (fun a c => a * 10 + (c.toNat - '0'.toNat)) 0

theorem decDigitsVal_append_digit (l : List Char) (c : Char) :
    decDigitsVal (l ++ [c]) = decDigitsVal l * 10 + (c.toNat - '0'.toNat) := by
  simp [decDigitsVal, List.foldl_append]

theorem digitChar_val : ∀ d, d < 10 → (Nat.digitChar d).toNat - '0'.toNat = d := by decide

theorem decDigitsRec_low (n : Nat) (h : n / 10 = 0) :
    decDigitsRec n = [Nat.digitChar (n % 10)] := by
  rw [decDigitsRec, dif_pos h]

theorem decDigitsRec_high (n : Nat) (h : n / 10 ≠ 0) :
    decDigitsRec n = decDigitsRec (n / 10) ++ [Nat.digitChar (n % 10)] := by
  rw [decDigitsRec, dif_neg h]

theorem decDigitsVal_decDigitsRec (n : Nat) : decDigitsVal (decDigitsRec n) = n := by
  induction n using decDigitsRec.induct with
  | case1 n h =>
    rw [decDigitsRec_low n h]
    have : n % 10 = n := by omega
    simp only [decDigitsVal, List.foldl_cons, List.foldl_nil, Nat.zero_mul, Nat.zero_add]
    rw [this]
    simpa using digitChar_val n (by omega)
  | case2 n h ih =>
    rw [decDigitsRec_high n h, decDigitsVal_append_digit, ih,
      digitChar_val _ (Nat.mod_lt _ (by norm_num))]
    omega

theorem decDigitsRec_inj {m n : Nat} (h : decDigitsRec m = decDigitsRec n) : m = n := by
  have hm := decDigitsVal_decDigitsRec m
  rw [h, decDigitsVal_decDigitsRec] at hm
  exact hm.symm

theorem toDigitsCore_eq_decDigitsRec (fuel : Nat) :
    ∀ (n : Nat) (ds : List Char), n < fuel →
      Nat.toDigitsCore 10 fuel n ds = decDigitsRec n ++ ds := by
  induction fuel with
  | zero => intro n ds h; omega
  | succ f ih =>
    intro n ds h
    rw [Nat.toDigitsCore]
    by_cases h10 : n / 10 = 0
    · simp only [h10, if_pos]
      rw [decDigitsRec, dif_pos h10]
      rfl
    · have hlt : n / 10 < n :=
        Nat.div_lt_self (Nat.pos_of_ne_zero (fun hn => h10 (by simp [hn]))) (by norm_num)
      simp only [h10, if_neg, if_false]
      rw [ih (n / 10) _ (by omega), decDigitsRec_high n h10]
      simp

theorem nat_repr_eq (n : Nat) : Nat.repr n = (decDigitsRec n).asString := by
  rw [Nat.repr, Nat.toDigits, toDigitsCore_eq_decDigitsRec (n + 1) n [] (Nat.lt_succ_self n)]
  simp

theorem nat_repr_inj {m n : Nat} (h : Nat.repr m = Nat.repr n) : m = n := by
  rw [nat_repr_eq, nat_repr_eq] at h
  exact decDigitsRec_inj (congrArg String.data h)

theorem subscopeIter_name (f : Frame) (k : Nat) : (subscopeIter f k).name = f.name := by
  induction k with
  | zero => rfl
  | succ k ih => simp [subscopeIter, new_subscope, ih]

theorem subscopeIter_cout (f : Frame) (k : Nat) : (subscopeIter f k).cout = f.cout + k := by
  induction k with
  | zero => rfl
  | succ k ih => simp [subscopeIter, new_subscope, ih]; omega

theorem childName_eq (f : Frame) (k : Nat) :
    childName f k = f.name ++ Nat.repr (f.cout + k) := by
  simp [childName, new_subscope, subscopeIter_name, subscopeIter_cout]

theorem string_append_cancel_left {a b c : String} (h : a ++ b = a ++ c) : b = c := by
  cases b; cases c
  have hd := congrArg String.data h
  simp only [String.data_append] at hd
  exact congrArg String.mk (List.append_cancel_left hd)

/-- C1 (amended): the anonymous-scope naming scheme is deterministic and,
WITHIN a single parent scope, collision-free: the `k1`-th and `k2`-th
anonymous children of the same parent always receive distinct names
(`<parent-name><index>` with a per-parent monotonically increasing index).
Across different parents the scheme admits collisions (see the
counterexample), so global collision-freedom of scope names and of
mangled symbols does not hold. -/
theorem C1_theorem (f : Frame) (k1 k2 : Nat) (hne : k1 ≠ k2) :
    childName f k1 ≠ childName f k2 := by
  rw [childName_eq, childName_eq]
  intro h
  have := nat_repr_inj (string_append_cancel_left h)
  omega

/-- Witness for C1: the first two anonymous children of the global scope
get distinct names. -/
theorem C1_witness : (0 : Nat) ≠ 1 ∧ childName globalFrame 0 ≠ childName globalFrame 1 :=
  ⟨by decide, C1_theorem globalFrame 0 1 (by decide)⟩

/-- Counterexample for C1 as stated: compiling `progC1` succeeds, two
DISTINCT scopes (the first anonymous child of `_GLOBAL1` and the eleventh
anonymous child of `_GLOBAL`) both receive the name `_GLOBAL10`, and the
mangled symbol `BUFFER__GLOBAL10_x` is consequently emitted as a data
label twice — two different scopes reusing the local identifier `x`
collide. -/
theorem C1_counterexample :
    (compile progC1).isOk = true ∧
    (compile progC1).state?.map (fun s => s.scope_trace.count "_GLOBAL10") = some 2 ∧
    (compile progC1).state?.map
      (fun s => countSubstr s.emitter.data_section.toList ".label BUFFER__GLOBAL10_x".toList) =
      some 2 := by
  refine ⟨by decide, by decide, by decide⟩

theorem expect_error {s : PState} {ks : List TokenKind} {e : Fatal} {s' : PState}
    (h : expect s ks = .error (e, s')) : ∃ k, e = .unexpectedToken k := by
  unfold expect at h
  split at h
  split at h
  · simp at h
  · simp only [Except.error.injEq, Prod.mk.injEq] at h
    exact ⟨_, h.1.symm⟩

theorem _collect_buf_error {s : PState} {e : Fatal} {s' : PState}
    (h : _collect_buf s = .error (e, s')) : ∃ k, e = .unexpectedToken k := by
  unfold _collect_buf at h
  split at h
  next e1 heq =>
    injection h with h'
    subst h'
    exact expect_error heq
  next name s1 heq =>
    split at h
    next e2 heq2 =>
      injection h with h'
      subst h'
      exact expect_error heq2
    next ty s2 heq2 => simp at h

theorem parseFnArgs_error {fuel : Nat} :
    ∀ {s : PState} {e : Fatal} {s' : PState},
      parseFnArgs fuel s = .error (e, s') →
      (∃ k, e = .unexpectedToken k) ∨ (∃ m, e = .crash m) := by
  induction fuel with
  | zero =>
    intro s e s' h
    unfold parseFnArgs at h
    simp only [Except.error.injEq, Prod.mk.injEq] at h
    exact .inr ⟨_, h.1.symm⟩
  | succ n ih =>
    intro s e s' h
    unfold parseFnArgs at h
    split at h
    next e1 heq =>
      injection h with h'
      subst h'
      exact .inl (_collect_buf_error heq)
    next var s1 heq =>
      dsimp only at h
      split at h
      next e2 heq2 =>
        injection h with h'
        subst h'
        exact .inl (expect_error heq2)
      next sep s2 heq2 =>
        split at h
        · simp at h
        · exact ih h

theorem scopeAppendFn_error {s : PState} {e : Fatal} {s' : PState}
    (h : scopeAppendFn s = .error (e, s')) : ∃ m, e = .crash m := by
  unfold scopeAppendFn at h
  split at h
  · simp only [Except.error.injEq, Prod.mk.injEq] at h
    exact ⟨_, h.1.symm⟩
  · split at h <;> simp_all

/-- C2 (amended): the nested-function check compares the current scope's
NAME against the literal `"_GLOBAL"`.  A `fn` parsed while the current
scope's name differs from `_GLOBAL` fails with the fatal nested-function
error (and nothing else happens: the state at exit is the state at entry);
a `fn` parsed while the current scope's name equals `_GLOBAL` never
produces the nested-function error — even when that scope is not the
outermost global scope but the body of a function itself named `_GLOBAL`
(see the counterexample). -/
theorem C2_theorem (fuel : Nat) (s : PState) (f : Frame) (r : List Frame)
    (hs : s.scopes = f :: r) :
    (f.name ≠ "_GLOBAL" → parse_function fuel s = .error (.nestedFunction, s)) ∧
    (f.name = "_GLOBAL" → ∀ e s', parse_function fuel s = .error (e, s') →
      e ≠ .nestedFunction) := by
  constructor
  · intro hne
    unfold parse_function
    rw [hs]
    simp [hne]
  · intro hg e s' h
    unfold parse_function at h
    split at h
    next heq =>
      rw [hs] at heq
      simp at heq
    next f2 r2 heq =>
      rw [hs] at heq
      injection heq with hf hr
      subst hf
      rw [if_neg (by simp [hg])] at h
      split at h
      next e1 heq =>
        injection h with h'
        rw [h'] at heq
        obtain ⟨k, hk⟩ := expect_error heq
        simp [hk]
      next name s1 heq =>
        split at h
        next e2 heq2 =>
          injection h with h'
          rw [h'] at heq2
          obtain ⟨k, hk⟩ := expect_error heq2
          simp [hk]
        next nx s2 heq2 =>
          split at h
          · dsimp only at h
            split at h
            next e3 heq3 =>
              injection h with h'
              rw [h'] at heq3
              rcases parseFnArgs_error heq3 with ⟨k, hk⟩ | ⟨m, hk⟩ <;> simp [hk]
            next s3 heq3 =>
              split at h
              next e4 heq4 =>
                injection h with h'
                rw [h'] at heq4
                obtain ⟨k, hk⟩ := expect_error heq4
                simp [hk]
              next rt s4 heq4 =>
                obtain ⟨m, hm⟩ := scopeAppendFn_error h
                simp [hm]
          · obtain ⟨m, hm⟩ := scopeAppendFn_error h
            simp [hm]

/-- Witness for C2: inside a scope named `main`, a function declaration
fails with the nested-function error. -/
theorem C2_witness :
    ("main" ≠ "_GLOBAL") ∧ parse_function 5 c2state = .error (.nestedFunction, c2state) :=
  ⟨by decide, (C2_theorem 5 c2state ⟨"main", [], 0, []⟩ [] rfl).1 (by decide)⟩

/-- Counterexample for C2 as stated: `progC2` declares `fn g` while the
current scope is the BODY of function `_GLOBAL` (the scope trace shows the
body scope `_GLOBAL` and then `g`'s body were both opened), i.e. not the
outermost global scope — yet the whole program compiles without any
fatal error. -/
theorem C2_counterexample :
    (compile progC2).isOk = true ∧
    (compile progC2).state?.map (fun s => s.scope_trace) = some ["_GLOBAL", "g"] :=
  ⟨by decide, by decide⟩

/-- C3 (amended): the end-of-input check compares the current scope's
NAME against `"_GLOBAL"`: it succeeds iff the name is `_GLOBAL` and
raises the fatal not-in-global-scope error otherwise.  A still-open
non-global scope that happens to be named `_GLOBAL` (the body of a
function of that name) therefore also passes (see the counterexample). -/
theorem C3_theorem (s : PState) (f : Frame) (r : List Frame) (hs : s.scopes = f :: r) :
    (f.name = "_GLOBAL" → parse_end_check s = .ok s) ∧
    (f.name ≠ "_GLOBAL" → parse_end_check s = .error (.endNotGlobal, s)) := by
  unfold parse_end_check
  rw [hs]
  exact ⟨fun hg => by simp [hg], fun hg => by simp [hg]⟩

/-- Witness for C3: at end of input inside a scope named `f`, the fatal
error is raised. -/
theorem C3_witness :
    ("f" ≠ "_GLOBAL") ∧ parse_end_check c3state = .error (.endNotGlobal, c3state) :=
  ⟨by decide, (C3_theorem c3state ⟨"f", [], 0, []⟩ [] rfl).2 (by decide)⟩

/-- Counterexample for C3 as stated: `progC3` ends with one scope still
open (the scope chain has length 2, not 1), yet parsing completes without
any fatal error, because the unclosed scope is the body of a function
named `_GLOBAL`. -/
theorem C3_counterexample :
    (compile progC3).isOk = true ∧
    (compile progC3).state?.map (fun s => s.scopes.length) = some 2 :=
  ⟨by decide, by decide⟩

theorem numToken_classify (v : Nat) :
    ((numToken v).kind = .byte ↔ v ≤ 255) ∧ ((numToken v).kind = .int16 ↔ 255 < v) := by
  unfold numToken
  split
  next hv => constructor <;> simp <;> omega
  next hv => constructor <;> simp <;> omega

theorem numToken_val (v : Nat) : (numToken v).val = .num v := by
  unfold numToken
  split <;> rfl

theorem keywordToken_val_ne_num (s : String) (n : Nat) :
    (keywordToken s).val ≠ .num n := by
  unfold keywordToken
  repeat' split
  all_goals simp

theorem lexNextBySym_num {cs : List Char} {t : Token} {rest : List Char} {n : Nat}
    (h : lexNextBySym cs = .ok (some t, rest)) (hv : t.val = .num n) : t = numToken n := by
  unfold lexNextBySym at h
  split at h
  · simp at h
  · split at h
    · simp only [Except.ok.injEq, Prod.mk.injEq, Option.some.injEq] at h
      obtain ⟨rfl, -⟩ := h
      simp at hv
    · split at h
      · split at h
        · dsimp only at h
          split at h
          next v heq =>
            simp only [Except.ok.injEq, Prod.mk.injEq, Option.some.injEq] at h
            obtain ⟨rfl, -⟩ := h
            rw [numToken_val] at hv
            injection hv with hv'
            rw [hv']
          next heq => simp at h
        · dsimp only at h
          split at h
          next v heq =>
            simp only [Except.ok.injEq, Prod.mk.injEq, Option.some.injEq] at h
            obtain ⟨rfl, -⟩ := h
            rw [numToken_val] at hv
            injection hv with hv'
            rw [hv']
          next heq => simp at h
        · simp at h
      · split at h
        · dsimp only at h
          split at h
          · simp only [Except.ok.injEq, Prod.mk.injEq, Option.some.injEq] at h
            obtain ⟨rfl, -⟩ := h
            simp at hv
          · simp at h
        · split at h
          · simp only [Except.ok.injEq, Prod.mk.injEq, Option.some.injEq] at h
            obtain ⟨rfl, -⟩ := h
            simp at hv
          · split at h
            · simp only [Except.ok.injEq, Prod.mk.injEq, Option.some.injEq] at h
              obtain ⟨rfl, -⟩ := h
              simp at hv
            · simp at h

theorem lexNext_num {cs : List Char} {t : Token} {rest : List Char} {n : Nat}
    (h : lexNext cs = .ok (some t, rest)) (hv : t.val = .num n) : t = numToken n := by
  unfold lexNext at h
  split at h
  · simp only [Except.ok.injEq, Prod.mk.injEq, Option.some.injEq] at h
    obtain ⟨rfl, -⟩ := h
    simp at hv
  · dsimp only at h
    split at h
    next e heq => simp at h
    next t2 rest2 heq =>
      simp only [Except.ok.injEq, Prod.mk.injEq, Option.some.injEq] at h
      obtain ⟨rfl, -⟩ := h
      exact lexNextBySym_num heq hv
    next cs2 heq =>
      split at h
      · split at h
        · simp at h
        · simp only [Except.ok.injEq, Prod.mk.injEq, Option.some.injEq] at h
          obtain ⟨rfl, -⟩ := h
          exact absurd hv (keywordToken_val_ne_num _ n)
      · simp only [Except.ok.injEq, Prod.mk.injEq, Option.some.injEq] at h
        obtain ⟨rfl, -⟩ := h
        rw [numToken_val] at hv
        injection hv with hv'
        rw [hv']

/-- C4 (amended): the parsed value — not the lexical form — determines
every numeric token's classification: any token the lexer produces that
carries a numeric value `n` is a byte token iff `n ≤ 255` and a wide
token iff `255 < n` (so in particular values 0–255 are byte and 256–65535
are wide).  A digit outside the literal's radix alphabet is, however, NOT
always a fatal error: the binary digit loop simply stops consuming, so
`0b102` silently lexes as two literals, and a hex buffer may contain a
second `0x`/`0X` prefix that Python's `int(buffer, 16)` accepts, so
`0x0x1f` lexes to the byte 31 with no error (see the counterexample).
What does hold universally: whenever the alphanumeric run collected for a
hex literal fails `int(buffer, 16)` — no valid hex digit run after an
optional `0x`/`0X` prefix — the lexer raises the fatal invalid-literal
error. -/
theorem C4_theorem :
    (∀ (cs : List Char) (t : Token) (rest : List Char) (n : Nat),
        lexNext cs = .ok (some t, rest) → t.val = .num n →
        ((t.kind = .byte ↔ n ≤ 255) ∧ (t.kind = .int16 ↔ 255 < n))) ∧
    (∀ rest2 : List Char,
        hexParse (rest2.takeWhile Char.isAlphanum) = Option.none →
        lexNext ('0' :: 'x' :: rest2) =
          .error (.lexInvalidLiteral (rest2.takeWhile Char.isAlphanum).asString "hex")) := by
  constructor
  · intro cs t rest n h hv
    rw [lexNext_num h hv]
    exact numToken_classify n
  · intro rest2 hfail
    have hstep : lexNextBySym ('0' :: 'x' :: rest2) =
        match hexParse (rest2.takeWhile Char.isAlphanum) with
        | some v => .ok (some (numToken v), rest2.dropWhile Char.isAlphanum)
        | Option.none =>
            .error (.lexInvalidLiteral (rest2.takeWhile Char.isAlphanum).asString "hex") := rfl
    rw [hfail] at hstep
    simp only [lexNext]
    rw [show List.dropWhile (fun c => c = ' ' || c = '\t') ('0' :: 'x' :: rest2) =
          '0' :: 'x' :: rest2 from rfl]
    rw [hstep]

/-- Witness for C4: the decimal literal `300` lexes to a wide token with
the classification equivalences, and the hex source `0x1g;` — whose
collected buffer `1g` fails hex parsing — raises the fatal
invalid-literal error. -/
theorem C4_witness :
    (lexNext "300".toList = .ok (some ⟨.int16, .num 300⟩, []) ∧
     (((⟨.int16, .num 300⟩ : Token).kind = .byte ↔ (300 : Nat) ≤ 255) ∧
      ((⟨.int16, .num 300⟩ : Token).kind = .int16 ↔ (255 : Nat) < 300))) ∧
    (hexParse ("1g;".toList.takeWhile Char.isAlphanum) = Option.none ∧
     lexNext ('0' :: 'x' :: "1g;".toList) =
       .error (.lexInvalidLiteral ("1g;".toList.takeWhile Char.isAlphanum).asString "hex")) :=
  ⟨⟨by rfl, C4_theorem.1 "300".toList ⟨.int16, .num 300⟩ [] 300 (by rfl) rfl⟩,
   ⟨by rfl, C4_theorem.2 "1g;".toList (by rfl)⟩⟩

/-- Counterexample for C4 as stated: digits outside the declared radix
alphabet need not be fatal.  The binary literal `0b102` contains the
digit `2`, outside the binary alphabet, yet lexing raises no error — the
lexer silently splits the input into the byte token for `0b10` (value 2)
and the byte token for `2`.  Likewise the hex source `0x0x1f` collects
the run `0x1f`, whose character `x` is outside the hex alphabet, yet
Python's `int(buffer, 16)` accepts it as a prefixed literal and the
lexer produces the byte token 31 with no error. -/
theorem C4_counterexample :
    lexAll 8 "0b102".toList =
      .ok [⟨.byte, .num 2⟩, ⟨.byte, .num 2⟩, ⟨.eof, .none⟩] ∧
    lexAll 8 "0x0x1f".toList = .ok [⟨.byte, .num 31⟩, ⟨.eof, .none⟩] :=
  ⟨by rfl, by rfl⟩

theorem get_sym_eq_nearestBinding (scopes : List Frame) (n : String) :
    get_sym scopes n = nearestBinding scopes n := by
  induction scopes with
  | nil => rfl
  | cons f r ih =>
    unfold get_sym nearestBinding
    by_cases hf : f.has_sym_strict n
    · simp [hf, List.find?_cons]
    · simp only [hf, if_false, List.find?_cons, Bool.false_eq_true, if_neg]
      exact ih

theorem has_sym_iff (scopes : List Frame) (n : String) :
    has_sym scopes n = true ↔ ∃ f ∈ scopes, f.has_sym_strict n = true := by
  induction scopes with
  | nil => simp [has_sym]
  | cons f r ih => simp [has_sym, ih, Bool.or_eq_true]

/-- C5: embedded-assembly resolution.  (i) `get_sym` implements exactly
the nearest-enclosing-binding lookup of the spec (`nearestBinding`, the
first frame from the innermost scope outwards that binds the name), and a
name is visible iff SOME enclosing frame binds it — so outer and global
symbols are reachable from nested blocks.  (ii) For an `asm` statement
parsed with an active function, when every placeholder of the text
resolves, the substituted text is appended verbatim to the code section
(and nothing else changes); when substitution hits an unresolved
placeholder, parsing fails with the fatal unresolved-symbol error for
that placeholder. -/
theorem C5_theorem :
    (∀ (scopes : List Frame) (n : String),
        get_sym scopes n = nearestBinding scopes n ∧
        (has_sym scopes n = true ↔ ∃ f ∈ scopes, f.has_sym_strict n = true)) ∧
    (∀ (s : PState) (code : String) (rest : List Token),
        s.toks = ⟨.string, .str code⟩ :: rest →
        s.signature.isSome = true →
        ((∀ out, parseAsmSub s.scopes (code.length + 1) code.toList "" = .ok out →
            parse_asm s = .ok { s with toks := rest,
                                       emitter := s.emitter.emit_asm_text out }) ∧
         (∀ n, parseAsmSub s.scopes (code.length + 1) code.toList "" =
              .error (.undeclaredSymbol n) →
            parse_asm s = .error (.undeclaredSymbol n, { s with toks := rest })))) := by
  constructor
  · exact fun scopes n => ⟨get_sym_eq_nearestBinding scopes n, has_sym_iff scopes n⟩
  · intro s code rest hs hsig
    obtain ⟨sig, hsig'⟩ := Option.isSome_iff_exists.mp hsig
    have hE : expect s [.string] = .ok (⟨.string, .str code⟩, { s with toks := rest }) := by
      unfold expect pnextS
      rw [hs]
      rfl
    constructor
    · intro out hsub
      unfold parse_asm
      rw [hE]
      dsimp only
      rw [hsig']
      dsimp only
      rw [show (⟨.string, .str code⟩ : Token).val.asStr = code from rfl, hsub]
    · intro n hsub
      unfold parse_asm
      rw [hE]
      dsimp only
      rw [hsig']
      dsimp only
      rw [show (⟨.string, .str code⟩ : Token).val.asStr = code from rfl, hsub]

/-- Witness for C5: inside nested scope `f0` of function `f`, the text
`%b %g` resolves `b` in the enclosing function scope and `g` in the
global scope, and the substituted text is appended to the code section. -/
theorem C5_witness :
    c5state.toks = [⟨.string, .str "%b %g"⟩] ∧
    c5state.signature.isSome = true ∧
    parseAsmSub c5state.scopes ("%b %g".length + 1) "%b %g".toList "" =
      .ok "BUFFER_f_b BUFFER__GLOBAL_g" ∧
    parse_asm c5state = .ok { c5state with
                              toks := [],
                              emitter := c5state.emitter.emit_asm_text
                                "BUFFER_f_b BUFFER__GLOBAL_g" } :=
  ⟨rfl, rfl, by rfl,
    (C5_theorem.2 c5state "%b %g" [] rfl rfl).1 "BUFFER_f_b BUFFER__GLOBAL_g" (by rfl)⟩

/-- C6: re-declaring an identifier in the current scope.  The duplicate
buffer declaration of Scenario B does fail with the fatal
duplicate-declaration error, with the emitter at exit EXACTLY as it was
after the first declaration (no second data label, constants and code
untouched).  But for a CONSTANT re-declaration the claimed diagnostic is
unreachable: `=` is unlexable (`Lexer._next` returns `None` for it and
the parser crashes dereferencing it), so the program aborts before the
duplicate check — the claim is right about the intent and the code's
missing `=` rule is the bug. -/
theorem C6_theorem :
    ((compile progC6a).err? = some (.duplicateDecl "x" "_GLOBAL") ∧
     (compile progC6a).state?.map (fun s => s.emitter) =
       some (initEmitter.emit_buffer "BUFFER__GLOBAL_x" 1)) ∧
    (compile progC6b).err? = some (.crash "Lexer._next returned None") :=
  ⟨⟨by decide, by decide⟩, by decide⟩

/-- C7: when a closing brace closes a scope whose name matches the active
function's, a non-void return type without a recorded acknowledgment is
the fatal missing-return error (raised before any state change);
otherwise (void return type, or `noret` recorded) the close succeeds, the
active-function reference is cleared, the end label is emitted and the
scope is popped. -/
theorem C7_theorem (s : PState) (f : Frame) (r : List Frame) (sig : Sig)
    (hs : s.scopes = f :: r) (hsig : s.signature = some sig) (hn : sig.name = f.name) :
    (sig.ret_type ≠ some "void" → sig.returned = false →
      parse_end_scope s = .error (.missingReturn sig.name, s)) ∧
    (sig.ret_type = some "void" ∨ sig.returned = true →
      parse_end_scope s = .ok { s with signature := Option.none, scopes := r,
                                       emitter := s.emitter.emit_text_label f.footer }) := by
  constructor
  · intro hrt hret
    unfold parse_end_scope
    rw [hs]
    dsimp only
    rw [hsig]
    dsimp only
    rw [if_pos hn, if_pos ⟨hrt, hret, hn⟩]
  · intro hok
    unfold parse_end_scope
    rw [hs]
    dsimp only
    rw [hsig]
    dsimp only
    rw [if_pos hn, if_neg (by rcases hok with h | h <;> simp [h])]

/-- Witness for C7: closing the body of non-void function `f` with no
acknowledgment raises the missing-return error. -/
theorem C7_witness :
    c7state.scopes = ⟨"f", [], 0, []⟩ :: [globalFrame] ∧
    c7state.signature = some ⟨"f", [], some "int", false⟩ ∧
    parse_end_scope c7state = .error (.missingReturn "f", c7state) :=
  ⟨rfl, rfl,
    (C7_theorem c7state ⟨"f", [], 0, []⟩ [globalFrame] ⟨"f", [], some "int", false⟩
      rfl rfl rfl).1 (by decide) rfl⟩

/-- C8: `fn main int { noret; }` parses to completion without a
missing-return error despite the non-void `int` return type, and its code
section consists of the fixed program-entry label `_main` followed by the
function scope's start and end labels. -/
theorem C8_theorem :
    (compile progC8).isOk = true ∧
    (compile progC8).state?.map (fun s => s.emitter.text_section) =
      some (textPreamble ++ "\n.label _main" ++ "\n.label __TUNGSTEN_START_main" ++
        "\n.label __TUNGSTEN_END_main") :=
  ⟨by decide, by decide⟩

/-- C9: the constants section cannot render the declared constants for
any program with constant declarations, because `=` is unlexable: the
lexer returns `None` for it and the parser crashes reading `.kind`, so
compilation of `progC9` aborts with a runtime crash and no artifact is
built.  Moreover `emit_const` (unlike every other emit method) appends no
newline, so even with `EQUALS` tokens two consecutive constants would be
glued onto one line rather than each forming its own `.set name value`
entry. -/
theorem C9_theorem :
    (compile progC9).err? = some (.crash "Lexer._next returned None") ∧
    ((initEmitter.emit_const "A" "5").emit_const "B" "6").constants =
      constPreamble ++ ".set A 5.set B 6" :=
  ⟨by decide, by decide⟩

/-- C10 (amended): when a closing brace is parsed while the current scope
is the global scope, then PROVIDED no pending signature matches the
global scope's name with a non-void return type and no acknowledgment
(in that corner the missing-return diagnostic fires — see the
counterexample), no diagnostic is raised: the close succeeds, emits the
global scope's end label and pops to the global scope's nonexistent
parent (`None`, the empty chain); any subsequent scope access — the
end-of-input check, or a statement such as a buffer allocation — then
fails with an uncaught runtime exception rather than a diagnostic, so
the step function is partial on unbalanced closing braces. -/
theorem C10_theorem (s : PState) (g : Frame) (hs : s.scopes = [g])
    (hsig : s.signature = Option.none ∨
      ∃ sig, s.signature = some sig ∧
        (sig.name ≠ g.name ∨ sig.ret_type = some "void" ∨ sig.returned = true)) :
    (∃ sg, parse_end_scope s =
      .ok { s with signature := sg
                   scopes := ([] : List Frame)
                   emitter := s.emitter.emit_text_label g.footer }) ∧
    (∀ s' : PState, s'.scopes = [] →
      parse_end_check s' = .error (.crash "NoneType has no attribute name", s')) ∧
    (∀ (s' : PState) (v : Variable), s'.scopes = [] →
      _alloc_var s' v = .error (.crash "NoneType has no attribute has_sym_strict", s')) := by
  refine ⟨?_, ?_, ?_⟩
  · unfold parse_end_scope
    rw [hs]
    dsimp only
    rcases hsig with hnone | ⟨sig, hsome, hcase⟩
    · rw [hnone]
      exact ⟨s.signature, rfl⟩
    · rw [hsome]
      dsimp only
      by_cases hname : sig.name = g.name
      · rw [if_pos hname, if_neg ?_]
        · exact ⟨Option.none, rfl⟩
        · rcases hcase with h | h | h
          · exact absurd hname h
          · simp [h]
          · simp [h]
      · rw [if_neg hname]
        exact ⟨s.signature, rfl⟩
  · intro s' hs'
    unfold parse_end_check
    rw [hs']
  · intro s' v hs'
    unfold _alloc_var
    rw [hs']

/-- Witness for C10: at the global scope with no pending signature, a
closing brace emits `__TUNGSTEN_END__GLOBAL`, pops to the empty chain,
and the subsequent end-of-input check crashes. -/
theorem C10_witness :
    c10state.scopes = [globalFrame] ∧
    (∃ sg, parse_end_scope c10state =
      .ok { c10state with signature := sg
                          scopes := ([] : List Frame)
                          emitter := c10state.emitter.emit_text_label
                            "__TUNGSTEN_END__GLOBAL" }) ∧
    parse_end_check { c10state with scopes := [] } =
      .error (.crash "NoneType has no attribute name", { c10state with scopes := [] }) := by
  have h := C10_theorem c10state globalFrame rfl (.inl rfl)
  exact ⟨rfl, h.1, h.2.1 _ rfl⟩

/-- Counterexample for C10 as stated: in `progC10` the closing brace is
parsed while the current scope is still the global scope (no scope was
ever pushed — the scope trace is empty), yet the parser DOES raise one of
the specified fatal diagnostics, the missing-return error, because the
pending signature is named `_GLOBAL` exactly like the global scope. -/
theorem C10_counterexample :
    (compile progC10).err? = some (.missingReturn "_GLOBAL") ∧
    (compile progC10).state?.map (fun s => s.scope_trace) = some [] :=
  ⟨by decide, by decide⟩

end Tungsten
